import Mathlib

/-!
A shallow embedding of parts of the kpt-config-sync code base
(status surface of the parse package, the reconciler-manager RepoSync
controller, the hydration controller, the implicit-namespace injection of
the root parser, and the admission webhook's notified-annotation check),
together with theorems checking the natural-language specification
against the code.

Conventions of the embedding:
* Go timestamps (metav1.Time) are modelled as a natural number, with 0
  standing for the zero time (`IsZero`).
* Go slices of errors are Lean lists; `cse[0 : len(cse)/d]` becomes
  `cse.take (cse.length / d)`.
* API calls are modelled by oracles supplied as explicit inputs: a write
  at a given truncation denominator either succeeds, fails with
  request-entity-too-large, or fails otherwise.
* Unbounded retry recursion is modelled with explicit fuel.
-/

namespace ConfigSync

/-- Model of v1beta1.ConfigSyncError: an error code plus a message.
Other fields (resources, position) are never inspected by the embedded logic. -/
structure ConfigSyncError where
  code : String
  errorMessage : String
deriving Repr, DecidableEq

/-- Model of v1beta1.ErrorSummary. -/
structure ErrorSummary where
  totalCount : Nat
  truncated : Bool
  errorCountAfterTruncation : Nat
deriving Repr, DecidableEq

/-- Model of v1beta1.ErrorSource (the constants SourceError, RenderingError, SyncError). -/
inductive ErrorSource
  | sourceError
  | renderingError
  | syncError
deriving Repr, DecidableEq

/-- Model of v1beta1.GitStatus. -/
structure GitStatus where
  repo : String
  revision : String
  branch : String
  dir : String
deriving Repr, DecidableEq

/-- Model of v1beta1.OciStatus. -/
structure OciStatus where
  image : String
  dir : String
deriving Repr, DecidableEq

/-- Model of v1beta1.HelmStatus. -/
structure HelmStatus where
  repo : String
  chart : String
  version : String
deriving Repr, DecidableEq

/-- Model of v1beta1.SourceStatus.  The errorSummary pointer is an Option
(nil in Go until a setter stores one); lastUpdate is a timestamp with 0 as
the zero time. -/
structure SourceStatus where
  commit : String
  git : Option GitStatus
  oci : Option OciStatus
  helm : Option HelmStatus
  errors : List ConfigSyncError
  errorSummary : Option ErrorSummary
  lastUpdate : Nat
deriving Repr, DecidableEq

/-- Model of v1beta1.RenderingStatus. -/
structure RenderingStatus where
  commit : String
  message : String
  git : Option GitStatus
  oci : Option OciStatus
  helm : Option HelmStatus
  errors : List ConfigSyncError
  errorSummary : Option ErrorSummary
  lastUpdate : Nat
deriving Repr, DecidableEq

/-- Model of v1beta1.SyncStatus. -/
structure SyncStatus where
  commit : String
  git : Option GitStatus
  oci : Option OciStatus
  helm : Option HelmStatus
  errors : List ConfigSyncError
  errorSummary : Option ErrorSummary
  lastUpdate : Nat
deriving Repr, DecidableEq

/-- Modelled from the spec: the Syncing condition written by
rootsync.SetSyncing / reposync.SetSyncing (pkg/rootsync and pkg/reposync are
not under src/).  The condition carries the syncing flag, reason, message,
commit, error sources, the error summary and an update timestamp. -/
structure SyncingCondition where
  status : Bool
  reason : String
  message : String
  commit : String
  errorSourceRefs : List ErrorSource
  errorSummary : ErrorSummary
  lastUpdate : Nat
deriving Repr, DecidableEq

/-- Model of the shared v1beta1.Status block of RootSync/RepoSync as used by
the parse-package status setters: LastCommit, LastSyncedCommit and the three
section statuses, plus the Syncing condition that SetSyncing maintains. -/
structure Status where
  lastCommit : String
  lastSyncedCommit : String
  source : SourceStatus
  rendering : RenderingStatus
  sync : SyncStatus
  syncing : Option SyncingCondition
deriving Repr, DecidableEq

/-- Model of setLastCommit (src/unnamed/part_001): store the commit in
Status.LastCommit. -/
def setLastCommit (st : Status) (commit : String) : Status :=
  { st with lastCommit := commit }

/-- Modelled from the spec: rootsync.SetSyncing / reposync.SetSyncing replace
the Syncing condition with one carrying the given fields. -/
def SetSyncing (st : Status) (status : Bool) (reason message commit : String)
    (errorSources : List ErrorSource) (errorSummary : ErrorSummary)
    (lastUpdate : Nat) : Status :=
  { st with
    syncing := some ⟨status, reason, message, commit, errorSources, errorSummary, lastUpdate⟩ }

/-- Model of cmp.Equal with compare.IgnoreTimestampUpdates: two statuses are
compared with every LastUpdate timestamp zeroed out. -/
def Status.ignoreTimestamps (st : Status) : Status :=
  { st with
    source := { st.source with lastUpdate := 0 }
    rendering := { st.rendering with lastUpdate := 0 }
    sync := { st.sync with lastUpdate := 0 }
    syncing := st.syncing.map fun c => { c with lastUpdate := 0 } }

/-- Model of v1beta1.SourceType (git, oci, helm). -/
inductive SourceType
  | git
  | oci
  | helm
deriving Repr, DecidableEq

/-- The subset of the parse-package opts read by the status setters via
p.options(): source type, repo, revision, branch, and sync directory. -/
structure ParserOpts where
  sourceType : SourceType
  sourceRepo : String
  sourceRev : String
  sourceBranch : String
  syncDir : String
deriving Repr, DecidableEq

/-- Model of the parse package's sourceStatus input struct; errs stands for
status.ToCSE(newStatus.errs), the converted error list. -/
structure SourceStatusInput where
  commit : String
  errs : List ConfigSyncError
  lastUpdate : Nat
deriving Repr, DecidableEq

/-- Model of the parse package's renderingStatus input struct. -/
structure RenderingStatusInput where
  commit : String
  message : String
  errs : List ConfigSyncError
  lastUpdate : Nat
deriving Repr, DecidableEq

/-- Model of the parse package's syncStatus input struct. -/
structure SyncStatusInput where
  syncing : Bool
  commit : String
  errs : List ConfigSyncError
  lastUpdate : Nat
deriving Repr, DecidableEq

/-- Model of setSourceStatusFields (src/unnamed/part_001 lines 461-498):
store the commit, the per-source-type sub-status, the truncated error list
cse[0:len/d], and an ErrorSummary with the pre-truncation TotalCount,
Truncated = (d != 1) and ErrorCountAfterTruncation = len/d. -/
def setSourceStatusFields (source : SourceStatus) (p : ParserOpts)
    (newStatus : SourceStatusInput) (d : Nat) : SourceStatus :=
  let cse := newStatus.errs
  let source := { source with commit := newStatus.commit }
  let source :=
    match p.sourceType with
    | .git =>
        { source with
          git := some ⟨p.sourceRepo, p.sourceRev, p.sourceBranch, p.syncDir⟩
          oci := none, helm := none }
    | .oci =>
        { source with
          oci := some ⟨p.sourceRepo, p.syncDir⟩
          git := none, helm := none }
    | .helm =>
        { source with
          helm := some ⟨p.sourceRepo, p.syncDir, p.sourceRev⟩
          git := none, oci := none }
  { source with
    errors := cse.take (cse.length / d)
    errorSummary := some ⟨cse.length, d != 1, cse.length / d⟩
    lastUpdate := newStatus.lastUpdate }

/-- Model of setRenderingStatusFields (src/unnamed/part_001 lines 563-600):
like the source variant but also stores the message, and its ErrorSummary
leaves ErrorCountAfterTruncation at zero. -/
def setRenderingStatusFields (rendering : RenderingStatus) (p : ParserOpts)
    (newStatus : RenderingStatusInput) (d : Nat) : RenderingStatus :=
  let cse := newStatus.errs
  let rendering := { rendering with commit := newStatus.commit }
  let rendering :=
    match p.sourceType with
    | .git =>
        { rendering with
          git := some ⟨p.sourceRepo, p.sourceRev, p.sourceBranch, p.syncDir⟩
          oci := none, helm := none }
    | .oci =>
        { rendering with
          oci := some ⟨p.sourceRepo, p.syncDir⟩
          git := none, helm := none }
    | .helm =>
        { rendering with
          helm := some ⟨p.sourceRepo, p.syncDir, p.sourceRev⟩
          git := none, oci := none }
  { rendering with
    message := newStatus.message
    errors := cse.take (cse.length / d)
    errorSummary := some ⟨cse.length, d != 1, 0⟩
    lastUpdate := newStatus.lastUpdate }

/-- Model of setSyncStatusErrors (src/unnamed/part_001 lines 679-685):
sync ErrorSummary gets the pre-truncation TotalCount and Truncated = (d != 1);
Errors is truncated to the first len/d entries. -/
def setSyncStatusErrors (st : Status) (cse : List ConfigSyncError) (d : Nat) : Status :=
  { st with
    sync := { st.sync with
      errorSummary := some ⟨cse.length, d != 1, 0⟩
      errors := cse.take (cse.length / d) } }

/-- Model of setSyncStatusFields (src/unnamed/part_001 lines 669-677):
copy the commit and the source sub-statuses onto the sync section, set the
errors via setSyncStatusErrors and stamp the LastUpdate. -/
def setSyncStatusFields (st : Status) (newStatus : SyncStatusInput) (d : Nat) : Status :=
  let cse := newStatus.errs
  let st := { st with
    sync := { st.sync with
      commit := newStatus.commit
      git := st.source.git
      oci := st.source.oci
      helm := st.source.helm } }
  let st := setSyncStatusErrors st cse d
  { st with sync := { st.sync with lastUpdate := newStatus.lastUpdate } }

/-- Model of summarizeErrors (src/unnamed/part_001 lines 692-713): collect the
error sources with non-empty Errors lists and add up the two section
summaries, skipping nil ones. -/
def summarizeErrors (source : SourceStatus) (sync : SyncStatus) :
    List ErrorSource × ErrorSummary :=
  let errorSources :=
    (if source.errors.length > 0 then [ErrorSource.sourceError] else []) ++
    (if sync.errors.length > 0 then [ErrorSource.syncError] else [])
  let add : ErrorSummary → Option ErrorSummary → ErrorSummary := fun acc s =>
    match s with
    | none => acc
    | some s =>
        ⟨acc.totalCount + s.totalCount,
         acc.truncated || s.truncated,
         acc.errorCountAfterTruncation + s.errorCountAfterTruncation⟩
  (errorSources, add (add ⟨0, false, 0⟩ source.errorSummary) sync.errorSummary)

/-- Outcome of one Status().Update API call, keyed by the truncation
denominator used for the attempt. -/
inductive WriteResult
  | ok
  | requestTooLarge
  | otherError
deriving Repr, DecidableEq

/-- Oracle for the API client used by the status setters: whether Get fails,
and the outcome of the status write at each denominator. -/
structure StatusClient where
  getError : Bool
  write : Nat → WriteResult

/-- Result of a status setter: the denominator guard tripped, the Get failed,
the update was skipped as unnecessary, the status was written, the write
failed with a non-413 error, or the retry fuel ran out. -/
inductive UpdateOutcome
  | invalidDenominator
  | apiGetError
  | skipped
  | written (st : Status)
  | apiUpdateError
  | fuelExhausted
deriving Repr, DecidableEq

/-- The in-memory status computed by one attempt of setSyncStatusWithRetries
(src/unnamed/part_001 lines 611-634, src/pkg/parse/namespace.go lines
275-298; the RootSync and RepoSync bodies are line-for-line the same in the
modelled logic): stamp LastCommit, fill the sync section, summarize source
and sync errors, update LastSyncedCommit when not syncing and no errors, and
write the Syncing condition. -/
def setSyncStatusBody (cur : Status) (newStatus : SyncStatusInput) (d : Nat) : Status :=
  let st := setLastCommit cur newStatus.commit
  let st := setSyncStatusFields st newStatus d
  let summarized := summarizeErrors st.source st.sync
  let errorSources := summarized.1
  let errorSummary := summarized.2
  if newStatus.syncing then
    SetSyncing st true "Sync" "Syncing" st.sync.commit errorSources errorSummary
      st.sync.lastUpdate
  else
    let st :=
      if errorSummary.totalCount == 0 then
        { st with lastSyncedCommit := st.sync.commit }
      else st
    SetSyncing st false "Sync" "Sync Completed" st.sync.commit errorSources errorSummary
      st.sync.lastUpdate

/-- Model of setSyncStatusWithRetries (src/unnamed/part_001 lines 611-667 and
src/pkg/parse/namespace.go lines 275-331): guard the denominator, fetch the
object, compute the new status, skip when the previous sync LastUpdate is
non-zero and nothing but timestamps changed, otherwise write; a
request-entity-too-large failure retries with the denominator doubled. -/
def setSyncStatusWithRetries (c : StatusClient) (cur : Status)
    (newStatus : SyncStatusInput) : Nat → Nat → UpdateOutcome
  | 0, _ => .fuelExhausted
  | _ + 1, 0 => .invalidDenominator
  | fuel + 1, d + 1 =>
    if c.getError then .apiGetError
    else
      let st := setSyncStatusBody cur newStatus (d + 1)
      if cur.sync.lastUpdate ≠ 0 ∧ cur.ignoreTimestamps = st.ignoreTimestamps then
        .skipped
      else
        match c.write (d + 1) with
        | .ok => .written st
        | .requestTooLarge => setSyncStatusWithRetries c cur newStatus fuel ((d + 1) * 2)
        | .otherError => .apiUpdateError

/-- The in-memory status computed by one attempt of
setSourceStatusWithRetries (src/unnamed/part_001 lines 409-459,
src/pkg/parse/namespace.go lines 147-201). -/
def setSourceStatusBody (cur : Status) (p : ParserOpts)
    (newStatus : SourceStatusInput) (d : Nat) : Status :=
  let st := setLastCommit cur newStatus.commit
  let st := { st with source := setSourceStatusFields st.source p newStatus d }
  let summary := st.source.errorSummary.getD ⟨0, false, 0⟩
  let continueSyncing := summary.totalCount == 0
  let errorSource :=
    if st.source.errors.length > 0 then [ErrorSource.sourceError] else []
  SetSyncing st continueSyncing "Source" "Source" newStatus.commit errorSource summary
    newStatus.lastUpdate

/-- Model of setSourceStatusWithRetries (src/unnamed/part_001 lines 409-459
and src/pkg/parse/namespace.go lines 147-201; the two are line-for-line the
same in the modelled logic). -/
def setSourceStatusWithRetries (c : StatusClient) (cur : Status) (p : ParserOpts)
    (newStatus : SourceStatusInput) : Nat → Nat → UpdateOutcome
  | 0, _ => .fuelExhausted
  | _ + 1, 0 => .invalidDenominator
  | fuel + 1, d + 1 =>
    if c.getError then .apiGetError
    else
      let st := setSourceStatusBody cur p newStatus (d + 1)
      if cur.source.lastUpdate ≠ 0 ∧ cur.ignoreTimestamps = st.ignoreTimestamps then
        .skipped
      else
        match c.write (d + 1) with
        | .ok => .written st
        | .requestTooLarge => setSourceStatusWithRetries c cur p newStatus fuel ((d + 1) * 2)
        | .otherError => .apiUpdateError

/-- The in-memory status computed by one attempt of
setRenderingStatusWithRetires (src/unnamed/part_001 lines 511-561,
src/pkg/parse/namespace.go lines 214-264). -/
def setRenderingStatusBody (cur : Status) (p : ParserOpts)
    (newStatus : RenderingStatusInput) (d : Nat) : Status :=
  let st := setLastCommit cur newStatus.commit
  let st := { st with rendering := setRenderingStatusFields st.rendering p newStatus d }
  let summary := st.rendering.errorSummary.getD ⟨0, false, 0⟩
  let continueSyncing := summary.totalCount == 0
  let errorSource :=
    if st.rendering.errors.length > 0 then [ErrorSource.renderingError] else []
  SetSyncing st continueSyncing "Rendering" newStatus.message newStatus.commit errorSource
    summary newStatus.lastUpdate

/-- Model of setRenderingStatusWithRetires (sic, the source's spelling;
src/unnamed/part_001 lines 511-561 and src/pkg/parse/namespace.go lines
214-264). -/
def setRenderingStatusWithRetires (c : StatusClient) (cur : Status) (p : ParserOpts)
    (newStatus : RenderingStatusInput) : Nat → Nat → UpdateOutcome
  | 0, _ => .fuelExhausted
  | _ + 1, 0 => .invalidDenominator
  | fuel + 1, d + 1 =>
    if c.getError then .apiGetError
    else
      let st := setRenderingStatusBody cur p newStatus (d + 1)
      if cur.rendering.lastUpdate ≠ 0 ∧ cur.ignoreTimestamps = st.ignoreTimestamps then
        .skipped
      else
        match c.write (d + 1) with
        | .ok => .written st
        | .requestTooLarge =>
            setRenderingStatusWithRetires c cur p newStatus fuel ((d + 1) * 2)
        | .otherError => .apiUpdateError

/-- The TotalCount contributed by the source section in summarizeErrors:
the stored summary's TotalCount, or 0 for a nil summary. -/
def sourceTotalCount (st : Status) : Nat :=
  match st.source.errorSummary with
  | none => 0
  | some s => s.totalCount

/-- Modelled from the spec: configsync.ControllerNamespace (pkg/api/configsync
is not under src/) is the controller's own namespace,
config-management-system. -/
def controllerNamespace : String := "config-management-system"

/-! Implicit namespaces (addImplicitNamespaces of the root parser). -/

/-- Model of ast.FileObject as consumed by addImplicitNamespaces: whether the
object's GroupKind is Namespace, its name, its metadata.namespace, and
whether it carries the lifecycle prevent-deletion annotation. -/
structure FileObject where
  isNamespaceKind : Bool
  name : String
  namespaceName : String
  preventDeletion : Bool
deriving Repr, DecidableEq

/-- Result of the client Get for a namespace inside addImplicitNamespaces:
NotFound, found together with the value diff.IsManager(p.scope, p.syncName,
existingNs) computes for it (the only use the code makes of the fetched
object), or a non-NotFound error. -/
inductive NsLookup
  | notFound
  | found (isManager : Bool)
  | lookupError
deriving Repr, DecidableEq

/-- Store a key in the association list modelling the Go namespaces map:
replace an existing binding or append a new one. -/
def setKey (m : List (String × Bool)) (k : String) (v : Bool) : List (String × Bool) :=
  match m with
  | [] => [(k, v)]
  | (k', v') :: rest => if k' = k then (k, v) :: rest else (k', v') :: setKey rest k v

/-- The namespaces map built by the first loop of addImplicitNamespaces
(src/unnamed/part_001 lines 723-733), as an association list in
first-insertion order (the Go map's iteration order is unspecified; only its
contents matter): a Namespace object marks its name declared (true); any
other object with a non-empty metadata.namespace ensures the key exists,
with value false unless it is already true. -/
def collectNamespaces (objs : List FileObject) : List (String × Bool) :=
  objs.foldl
    (fun m o =>
      if o.isNamespaceKind then setKey m o.name true
      else if o.namespaceName ≠ "" ∧ m.lookup o.namespaceName ≠ some true then
        setKey m o.namespaceName false
      else m)
    []

/-- The synthesized implicit Namespace object (src/unnamed/part_001 lines
758-772): a Namespace of the given name carrying the lifecycle
prevent-deletion annotation. -/
def implicitNamespace (ns : String) : FileObject :=
  ⟨true, ns, "", true⟩

/-- Model of addImplicitNamespaces (src/unnamed/part_001 lines 719-776).
cluster gives the outcome of the client Get for each namespace name.
Returns the extended object list and the accumulated error messages. -/
def addImplicitNamespaces (cluster : String → NsLookup) (objs : List FileObject) :
    List FileObject × List String :=
  (collectNamespaces objs).foldl
    (fun acc nsd =>
      if nsd.2 || nsd.1 == controllerNamespace then acc
      else
        match cluster nsd.1 with
        | .lookupError =>
            (acc.1,
             acc.2 ++ ["unable to check the existence of the implicit namespace " ++ nsd.1])
        | .found isManager =>
            if isManager then (acc.1 ++ [implicitNamespace nsd.1], acc.2) else acc
        | .notFound => (acc.1 ++ [implicitNamespace nsd.1], acc.2))
    (objs, [])

/-! Remediator conflict errors (prependRootSyncRemediatorStatus). -/

/-- Model of status.ManagementConflictErrorCode (pkg/status is not under
src/): its concrete digits are irrelevant to the embedded logic, only
equality with stored error codes matters. -/
def ManagementConflictErrorCode : String := "1060"

/-- Model of status.ManagementConflictError as used by
prependRootSyncRemediatorStatus: it yields two ConfigSyncError forms, its
own (ToCSE) and its current-manager pair (CurrentManagerError().ToCSE()),
both carrying ManagementConflictErrorCode. -/
structure ManagementConflictError where
  message : String
  currentManagerMessage : String
deriving Repr, DecidableEq

/-- The conflict error's own ConfigSyncError form (ToCSE). -/
def ManagementConflictError.toCSE (e : ManagementConflictError) : ConfigSyncError :=
  ⟨ManagementConflictErrorCode, e.message⟩

/-- The current-manager pair's ConfigSyncError form. -/
def ManagementConflictError.currentManagerCSE (e : ManagementConflictError) : ConfigSyncError :=
  ⟨ManagementConflictErrorCode, e.currentManagerMessage⟩

/-- The dedup-and-collect loop of prependRootSyncRemediatorStatus
(src/unnamed/part_001 lines 807-822): keep a conflict's ToCSE form unless an
existing sync error with code ManagementConflictErrorCode matches either of
its two message forms. -/
def newConflictErrors (syncErrors : List ConfigSyncError)
    (conflictErrs : List ManagementConflictError) : List ConfigSyncError :=
  conflictErrs.foldl
    (fun errs conflictErr =>
      let errorFound := syncErrors.any fun e =>
        e.code == ManagementConflictErrorCode &&
          (e.errorMessage == conflictErr.toCSE.errorMessage ||
           e.errorMessage == conflictErr.currentManagerCSE.errorMessage)
      if errorFound then errs else errs ++ [conflictErr.toCSE])
    []

/-- Result of prependRootSyncRemediatorStatus. -/
inductive PrependOutcome
  | invalidDenominator
  | apiGetError
  | noNewErrors
  | written (st : Status)
  | apiUpdateError
  | fuelExhausted
deriving Repr, DecidableEq

/-- Model of prependRootSyncRemediatorStatus (src/unnamed/part_001 lines
797-843): fetch the RootSync, drop conflicts whose message matches an
existing sync error, return without an API call when nothing new remains,
otherwise put the new errors in front of the existing ones, store them via
setSyncStatusErrors, stamp Sync.LastUpdate with the current time, and write,
retrying a request-entity-too-large failure with the denominator doubled. -/
def prependRootSyncRemediatorStatus (c : StatusClient) (cur : Status)
    (conflictErrs : List ManagementConflictError) (now : Nat) :
    Nat → Nat → PrependOutcome
  | 0, _ => .fuelExhausted
  | _ + 1, 0 => .invalidDenominator
  | fuel + 1, d + 1 =>
    if c.getError then .apiGetError
    else
      let errs := newConflictErrors cur.sync.errors conflictErrs
      if errs.length == 0 then .noNewErrors
      else
        let errs := errs ++ cur.sync.errors
        let st := setSyncStatusErrors cur errs (d + 1)
        let st := { st with sync := { st.sync with lastUpdate := now } }
        match c.write (d + 1) with
        | .ok => .written st
        | .requestTooLarge =>
            prependRootSyncRemediatorStatus c cur conflictErrs now fuel ((d + 1) * 2)
        | .otherError => .apiUpdateError

/-! Hydration controller. -/

/-- State of a file on disk: absent, present but unreadable, or readable
with the given content. -/
inductive FileState
  | absent
  | unreadable
  | content (s : String)
deriving Repr, DecidableEq

/-- Result of os.Stat on the hydration error file: present, missing
(IsNotExist), or some other stat error. -/
inductive StatResult
  | present
  | missing
  | statError
deriving Repr, DecidableEq

/-- Model of DoneCommit (src/pkg/hydrate/controller.go lines 261-273): the
content of the done file, or the empty string when the file is absent or
cannot be read or checked. -/
def DoneCommit (doneFile : FileState) : String :=
  match doneFile with
  | .content s => s
  | .absent => ""
  | .unreadable => ""

/-- The filesystem and source state a Hydrator tick observes: the outcome of
SourceCommitAndDir (an error, or the commit and sync directory), the done
file, and the error file under the hydrated root. -/
structure HydratorEnv where
  source : Except String (String × String)
  doneFile : FileState
  errorFile : StatResult
deriving Repr

/-- What a timer tick does: nothing, or invoke (re)hydration for a commit. -/
inductive TickOutcome
  | skip
  | render (commit : String)
deriving Repr, DecidableEq

/-- Model of the runTimer arm of Hydrator.Run (src/pkg/hydrate/controller.go
lines 94-107): on a SourceCommitAndDir error only log; otherwise invoke
hydration exactly when the observed commit differs from the done file's
recorded commit. -/
def runTimerTick (env : HydratorEnv) : TickOutcome :=
  match env.source with
  | .error _ => .skip
  | .ok cs => if DoneCommit env.doneFile ≠ cs.1 then .render cs.1 else .skip

/-- Model of the rehydrateTimer arm of Hydrator.Run (lines 86-93) combined
with rehydrateOnError (lines 183-196): on a SourceCommitAndDir error only
log; otherwise re-render exactly when the error file is present under the
hydrated root. -/
def rehydrateTimerTick (env : HydratorEnv) : TickOutcome :=
  match env.source with
  | .error _ => .skip
  | .ok cs =>
      match env.errorFile with
      | .present => .render cs.1
      | .missing => .skip
      | .statError => .skip

/-- Model of hydrate.HydrationError with its transient / internal /
actionable classification. -/
inductive HydrationError
  | transient (msg : String)
  | internal (msg : String)
  | actionable (msg : String)
deriving Repr, DecidableEq

/-- The environment one runHydrate pass interacts with: the kustomize build
outcome, the commit recomputed from the source symlink after the build
(ComputeCommit), and the symlink update outcome. -/
structure RunHydrateEnv where
  kustomizeBuild : Option HydrationError
  computeCommit : Except String String
  updateSymlinkError : Option String
deriving Repr

/-- Result of a runHydrate pass: the hydration error, if any, and whether
updateSymlink was invoked at all. -/
structure RunHydrateResult where
  err : Option HydrationError
  symlinkUpdateAttempted : Bool
deriving Repr, DecidableEq

/-- Model of runHydrate (src/pkg/hydrate/controller.go lines 113-133): run
the kustomize build; recompute the source commit; if it changed mid-render
return a transient error without touching the hydrated symlink; otherwise
swap the symlink. -/
def runHydrate (sourceCommit : String) (env : RunHydrateEnv) : RunHydrateResult :=
  match env.kustomizeBuild with
  | some e => ⟨some e, false⟩
  | none =>
    match env.computeCommit with
    | .error e => ⟨some (.transient e), false⟩
    | .ok newCommit =>
      if sourceCommit ≠ newCommit then
        ⟨some (.transient ("source commit changed while running Kustomize build, was " ++
            sourceCommit ++ ", now " ++ newCommit ++
            ". It will be retried in the next sync")),
         false⟩
      else
        match env.updateSymlinkError with
        | some e => ⟨some (.internal e), true⟩
        | none => ⟨none, true⟩

/-! Reconciler-manager: the RepoSync controller's Reconcile. -/

/-- The RepoSync status fields touched by the reconciler-manager: the
observed generation, the Reconciling and Stalled conditions (as reason and
message; a present Stalled condition has status True), and the reconciler
name.  Condition timestamps are ignored by the equality the code uses, so
they are omitted. -/
structure RepoSyncStatus where
  observedGeneration : Nat
  reconciling : Option (String × String)
  stalled : Option (String × String)
  reconciler : String
deriving Repr, DecidableEq

/-- The RepoSync object as observed by Reconcile. -/
structure RepoSyncObj where
  namespaceName : String
  name : String
  resourceVersion : String
  generation : Nat
  deletionTimestampIsZero : Bool
  status : RepoSyncStatus
deriving Repr, DecidableEq

/-- Modelled from the spec: reposync.SetStalled (pkg/reposync is not under
src/) writes a Stalled=True condition with the given reason and message. -/
def setStalled (rs : RepoSyncObj) (reason msg : String) : RepoSyncObj :=
  { rs with status := { rs.status with stalled := some (reason, msg) } }

/-- Modelled from the spec: reposync.SetReconciling writes a Reconciling
condition with the given reason and message. -/
def setReconciling (rs : RepoSyncObj) (reason msg : String) : RepoSyncObj :=
  { rs with status := { rs.status with reconciling := some (reason, msg) } }

/-- Modelled from the spec: reposync.ClearCondition on the Stalled
condition. -/
def clearStalled (rs : RepoSyncObj) : RepoSyncObj :=
  { rs with status := { rs.status with stalled := none } }

/-- Modelled from the spec: reposync.ClearCondition on the Reconciling
condition. -/
def clearReconciling (rs : RepoSyncObj) : RepoSyncObj :=
  { rs with status := { rs.status with reconciling := none } }

/-- Modelled from the spec: core.NsReconcilerName maps a RepoSync to its
worker name ns-reconciler-(namespace)-(name). -/
def nsReconcilerName (ns name : String) : String :=
  "ns-reconciler-" ++ ns ++ "-" ++ name

/-- Outcome of the initial client Get for the RepoSync. -/
inductive GetResult
  | found (rs : RepoSyncObj)
  | notFound
  | apiError
deriving Repr, DecidableEq

/-- kstatus.Compute outcome for the reconciler Deployment. -/
inductive KStatusResult
  | inProgress
  | failed
  | current
  | computeError
deriving Repr, DecidableEq

/-- controllerutil operation result of upsertDeployment, collapsed to
whether it was OperationResultNone. -/
inductive OperationResult
  | unchanged
  | changed
deriving Repr, DecidableEq

/-- Oracle for every API interaction and helper a Reconcile pass makes,
supplied as an explicit input.  A some value is the error the call returned;
none means success. -/
structure ReconcileEnv where
  getResult : GetResult
  cleanupError : Option String
  reconcilerNameValid : Bool
  specError : Option String
  authSecretError : Option String
  caCertSecretError : Option String
  saError : Option String
  roleBindingError : Option String
  notificationEnabled : Except String Bool
  notificationUpsertError : Option String
  notificationDeleteError : Option String
  deployUpsertError : Option String
  deployOp : OperationResult
  deployGetError : Option String
  kstatus : KStatusResult
  kstatusMessage : String
  statusWriteError : Option String
deriving Repr

/-- The manager's per-object bookkeeping: the resourceVersion recorded by
setLastReconciled at the last successful status write, and membership in the
repoSyncs cache. -/
structure ManagerState where
  lastReconciled : Option String
  inRepoSyncs : Bool
deriving Repr, DecidableEq

/-- The provisioning and API side effects a Reconcile pass performs, in
order. -/
inductive Action
  | cleanupNSControllerResources
  | upsertAuthSecret
  | upsertCACertSecret
  | upsertServiceAccount
  | upsertRoleBinding
  | upsertNotification
  | deleteNotification
  | upsertDeployment
  | getDeployment
  | statusWrite
deriving Repr, DecidableEq

/-- Result of a Reconcile pass: the side effects performed, the returned
error, the manager state afterwards, and the final in-memory RepoSync. -/
structure ReconcileOutcome where
  actions : List Action
  err : Option String
  state : ManagerState
  rs : Option RepoSyncObj
deriving Repr, DecidableEq

/-- Result of updateStatus. -/
structure UpdateStatusResult where
  updated : Bool
  err : Option String
  state : ManagerState
  actions : List Action
  rs : RepoSyncObj
deriving Repr, DecidableEq

/-- Model of RepoSyncReconciler.updateStatus
(src/pkg/reconcilermanager/controllers/reposync_controller.go lines
828-854): set ObservedGeneration from the generation, skip when nothing but
timestamps changed relative to the status captured at the start of the pass,
otherwise write the status; a successful write records the fetched
resourceVersion via setLastReconciled. -/
def updateStatus (env : ReconcileEnv) (st : ManagerState)
    (currentStatus : RepoSyncStatus) (rs : RepoSyncObj) : UpdateStatusResult :=
  let rs := { rs with status := { rs.status with observedGeneration := rs.generation } }
  if currentStatus = rs.status then ⟨false, none, st, [], rs⟩
  else
    match env.statusWriteError with
    | some e => ⟨false, some e, st, [Action.statusWrite], rs⟩
    | none =>
        ⟨true, none, { st with lastReconciled := some rs.resourceVersion },
         [Action.statusWrite], rs⟩

/-- Prepend the action of a successfully completed stage to an outcome. -/
def withAction (a : Action) (o : ReconcileOutcome) : ReconcileOutcome :=
  { o with actions := a :: o.actions }

/-- The tail of Reconcile from the kstatus computation on
(src/pkg/reconcilermanager/controllers/reposync_controller.go lines
382-441): translate the Deployment kstatus into the Reconciling/Stalled
condition pair, then update the status. -/
def reconcileDeployStatus (env : ReconcileEnv) (st : ManagerState)
    (currentStatus : RepoSyncStatus) (rs : RepoSyncObj) : ReconcileOutcome :=
  match env.kstatus with
  | .computeError =>
      let rs := setStalled rs "Deployment" "kstatus compute failed"
      let u := updateStatus env st currentStatus rs
      ⟨u.actions, some "kstatus compute failed", u.state, some u.rs⟩
  | .inProgress =>
      let rs := clearStalled (setReconciling rs "Deployment" env.kstatusMessage)
      let u := updateStatus env st currentStatus rs
      ⟨u.actions, u.err, u.state, some u.rs⟩
  | .failed =>
      let rs := setStalled (setReconciling rs "Deployment" env.kstatusMessage)
        "Deployment" "Failed"
      let u := updateStatus env st currentStatus rs
      ⟨u.actions, u.err, u.state, some u.rs⟩
  | .current =>
      let rs := clearStalled (clearReconciling rs)
      let u := updateStatus env st currentStatus rs
      ⟨u.actions, u.err, u.state, some u.rs⟩

/-- The provisioning stages of Reconcile, from the auth-secret copy to the
Deployment upsert (src/pkg/reconcilermanager/controllers/
reposync_controller.go lines 188-380).  Each failed stage sets a Stalled
condition, attempts a status update, and returns the stage error; each
successful stage records its action and continues. -/
def reconcileProvision (env : ReconcileEnv) (st : ManagerState)
    (currentStatus : RepoSyncStatus) (rs : RepoSyncObj) : ReconcileOutcome :=
  match env.authSecretError with
  | some e =>
      let rs := setStalled rs "Secret" e
      let u := updateStatus env st currentStatus rs
      ⟨Action.upsertAuthSecret :: u.actions, some ("Secret reconcile failed: " ++ e),
       u.state, some u.rs⟩
  | none =>
  withAction .upsertAuthSecret <|
  match env.caCertSecretError with
  | some e =>
      let rs := setStalled rs "Secret" e
      let u := updateStatus env st currentStatus rs
      ⟨Action.upsertCACertSecret :: u.actions, some ("Secret reconcile failed: " ++ e),
       u.state, some u.rs⟩
  | none =>
  withAction .upsertCACertSecret <|
  match env.saError with
  | some e =>
      let rs := setStalled rs "ServiceAccount" e
      let u := updateStatus env st currentStatus rs
      ⟨Action.upsertServiceAccount :: u.actions,
       some ("ServiceAccount reconcile failed: " ++ e), u.state, some u.rs⟩
  | none =>
  withAction .upsertServiceAccount <|
  match env.roleBindingError with
  | some e =>
      let rs := setStalled rs "RoleBinding" e
      let u := updateStatus env st currentStatus rs
      ⟨Action.upsertRoleBinding :: u.actions,
       some ("RoleBinding reconcile failed: " ++ e), u.state, some u.rs⟩
  | none =>
  withAction .upsertRoleBinding <|
  match env.notificationEnabled with
  | .error e =>
      let rs := setStalled rs "Notification" e
      let u := updateStatus env st currentStatus rs
      ⟨u.actions, some ("Check notification configuration failed: " ++ e),
       u.state, some u.rs⟩
  | .ok enabled =>
  let afterNotification : ReconcileOutcome → ReconcileOutcome :=
    if enabled then
      fun o =>
        match env.notificationUpsertError with
        | some e =>
            let rs := setStalled rs "Notification" e
            let u := updateStatus env st currentStatus rs
            ⟨Action.upsertNotification :: u.actions,
             some ("Notification upsert failed: " ++ e), u.state, some u.rs⟩
        | none => withAction .upsertNotification o
    else
      fun o =>
        match env.notificationDeleteError with
        | some e =>
            ⟨[Action.deleteNotification], some ("failed to delete Notification: " ++ e),
             st, some rs⟩
        | none => withAction .deleteNotification o
  afterNotification <|
  match env.deployUpsertError with
  | some e =>
      let rs := setStalled rs "Deployment" e
      let u := updateStatus env st currentStatus rs
      ⟨Action.upsertDeployment :: u.actions,
       some ("Deployment reconcile failed: " ++ e), u.state, some u.rs⟩
  | none =>
  withAction .upsertDeployment <|
  let rs := { rs with status := { rs.status with
    reconciler := nsReconcilerName rs.namespaceName rs.name } }
  match env.deployOp with
  | .unchanged =>
      (match env.deployGetError with
       | some e =>
           let rs := setStalled rs "Deployment" e
           let u := updateStatus env st currentStatus rs
           ⟨Action.getDeployment :: u.actions, some e, u.state, some u.rs⟩
       | none =>
           withAction .getDeployment <|
           reconcileDeployStatus env st currentStatus rs)
  | .changed => reconcileDeployStatus env st currentStatus rs

/-- Model of RepoSyncReconciler.Reconcile
(src/pkg/reconcilermanager/controllers/reposync_controller.go lines
94-441): handle NotFound cleanup, reject an already-reconciled
resourceVersion with an error, validate the namespace, the reconciler name
and the spec (each failure stalls with reason Validation and returns the
status-update error only), then run the provisioning stages. -/
def reconcile (env : ReconcileEnv) (st : ManagerState) : ReconcileOutcome :=
  match env.getResult with
  | .apiError => ⟨[], some "failed to get RepoSync", st, none⟩
  | .notFound =>
      let st := { st with lastReconciled := none }
      if st.inRepoSyncs = false then ⟨[], none, st, none⟩
      else ⟨[Action.cleanupNSControllerResources], env.cleanupError, st, none⟩
  | .found rs =>
      if st.lastReconciled = some rs.resourceVersion then
        ⟨[], some ("ResourceVersion already reconciled: " ++ rs.resourceVersion),
         st, some rs⟩
      else
        let currentStatus := rs.status
        if rs.namespaceName = controllerNamespace then
          let rs := setStalled rs "Validation"
            ("RepoSync objects are not allowed in the " ++ controllerNamespace ++
             " namespace")
          let u := updateStatus env st currentStatus rs
          ⟨u.actions, u.err, u.state, some u.rs⟩
        else
          let st := { st with inRepoSyncs := true }
          if env.reconcilerNameValid = false then
            let rs := setStalled rs "Validation"
              ("Invalid reconciler name " ++ nsReconcilerName rs.namespaceName rs.name)
            let u := updateStatus env st currentStatus rs
            ⟨u.actions, u.err, u.state, some u.rs⟩
          else
            match env.specError with
            | some e =>
                let rs := setStalled rs "Validation" e
                let u := updateStatus env st currentStatus rs
                ⟨u.actions, u.err, u.state, some u.rs⟩
            | none => reconcileProvision env st currentStatus rs

/-! Admission webhook: the notified-annotation fast path. -/

/-- Model of util.NotifiedAnnotationPath (src/pkg/util/notification.go lines
32-34). -/
def NotifiedAnnotationPath : String :=
  ".metadata.annotations.notified.notifications.argoproj.io"

/-- The field path of .metadata.managedFields, which the webhook's diff
check ignores. -/
def metadataManagedFieldsPath : String := ".metadata.managedFields"

/-- Modelled from the spec: webhook.OnlyNotifiedAnnotation
(pkg/webhook/fields.go is not under src/; src has its tests and the
NotifiedAnnotationPath constant) returns true exactly when the set of
changed field paths — here a list of dotted paths — is confined to
util.NotifiedAnnotationPath, ignoring the .metadata.managedFields path. -/
def onlyNotifiedAnnotationCheck (diffSet : List String) : Bool :=
  diffSet.all fun p => p == NotifiedAnnotationPath || p == metadataManagedFieldsPath

/-! Spec-side predicates used to state the theorems. -/

/-- Whether some object in the list is a Namespace named ns. -/
def declaresNamespace (objs : List FileObject) (ns : String) : Bool :=
  objs.any fun o => o.isNamespaceKind && o.name == ns

/-- Whether some non-Namespace object in the list has metadata.namespace ns
(the empty namespace never counts). -/
def referencesNamespace (objs : List FileObject) (ns : String) : Bool :=
  !(ns == "") && objs.any fun o => !o.isNamespaceKind && o.namespaceName == ns

/-- Whether addImplicitNamespaces synthesizes a namespace given its cluster
lookup result: yes when absent from the cluster, yes when present and
managed by this reconciler, no otherwise. -/
def synthesizes (r : NsLookup) : Bool :=
  match r with
  | .notFound => true
  | .found isManager => isManager
  | .lookupError => false

/-- Whether a management-conflict error duplicates an existing sync error
(the dedup test of prependRootSyncRemediatorStatus). -/
def isDupConflict (syncErrors : List ConfigSyncError)
    (conflictErr : ManagementConflictError) : Bool :=
  syncErrors.any fun e =>
    e.code == ManagementConflictErrorCode &&
      (e.errorMessage == conflictErr.toCSE.errorMessage ||
       e.errorMessage == conflictErr.currentManagerCSE.errorMessage)

/-! Concrete example inputs used by the witnesses. -/

/-- A status with everything empty and all timestamps at the zero time. -/
def emptyStatus : Status :=
  { lastCommit := "", lastSyncedCommit := ""
    source := ⟨"", none, none, none, [], none, 0⟩
    rendering := ⟨"", "", none, none, none, [], none, 0⟩
    sync := ⟨"", none, none, none, [], none, 0⟩
    syncing := none }

/-- A client whose writes always succeed. -/
def okClient : StatusClient := ⟨false, fun _ => WriteResult.ok⟩

/-- A client whose writes always fail with request-entity-too-large. -/
def tooLargeClient : StatusClient := ⟨false, fun _ => WriteResult.requestTooLarge⟩

/-- Example parser options for a git source. -/
def exOpts : ParserOpts := ⟨.git, "git@example.com:repo", "HEAD", "main", "acme"⟩

/-- Two example sync errors. -/
def exErrs : List ConfigSyncError := [⟨"2009", "apply error one"⟩, ⟨"2009", "apply error two"⟩]

/-- An example RepoSync outside the controller namespace. -/
def exRepoSync : RepoSyncObj :=
  ⟨"bookstore", "repo-sync", "12345", 1, true, ⟨0, none, none, ""⟩⟩

/-- An example RepoSync living in the controller namespace. -/
def exRepoSyncInControllerNs : RepoSyncObj :=
  ⟨controllerNamespace, "repo-sync", "67890", 3, true, ⟨0, none, none, ""⟩⟩

/-- A reconcile environment where every stage would succeed. -/
def exEnvAllOk : ReconcileEnv :=
  { getResult := .found exRepoSync
    cleanupError := none
    reconcilerNameValid := true
    specError := none
    authSecretError := none
    caCertSecretError := none
    saError := none
    roleBindingError := none
    notificationEnabled := .ok false
    notificationUpsertError := none
    notificationDeleteError := none
    deployUpsertError := none
    deployOp := .changed
    deployGetError := none
    kstatus := .current
    kstatusMessage := "Deployment is available"
    statusWriteError := none }

/-- The all-ok environment observing the RepoSync in the controller
namespace. -/
def exEnvControllerNs : ReconcileEnv :=
  { exEnvAllOk with getResult := .found exRepoSyncInControllerNs }

/-- An example source-status input carrying two errors. -/
def exSrcInput : SourceStatusInput := ⟨"abc", exErrs, 5⟩

/-- An example rendering-status input carrying two errors. -/
def exRndInput : RenderingStatusInput := ⟨"abc", "rendered", exErrs, 5⟩

/-- An example non-syncing sync-status input with no errors. -/
def exSyncInputNoErrs : SyncStatusInput := ⟨false, "abc", [], 7⟩

/-- An example syncing sync-status input with two errors. -/
def exSyncInputErrs : SyncStatusInput := ⟨false, "abc", exErrs, 7⟩

/-- A conflict whose message already appears among the sync errors. -/
def exConflictA : ManagementConflictError := ⟨"conflict A", "conflict A pair"⟩

/-- A conflict not yet recorded. -/
def exConflictB : ManagementConflictError := ⟨"conflict B", "conflict B pair"⟩

/-- A status whose sync errors already record conflict A. -/
def exCurWithConflict : Status :=
  { emptyStatus with
    sync := { emptyStatus.sync with
      errors := [⟨ManagementConflictErrorCode, "conflict A"⟩] } }

/-- Example parsed objects: a Namespace declaring ns-decl, a Role in
ns-decl, a Role in ns-new, a Role in ns-foreign, a Role in the controller
namespace, and a cluster-scoped Role. -/
def exObjs : List FileObject :=
  [⟨true, "ns-decl", "", false⟩,
   ⟨false, "role-a", "ns-decl", false⟩,
   ⟨false, "role-b", "ns-new", false⟩,
   ⟨false, "role-c", "ns-foreign", false⟩,
   ⟨false, "role-d", controllerNamespace, false⟩,
   ⟨false, "role-e", "", false⟩]

/-- Example cluster: ns-foreign exists under a different manager, everything
else is absent. -/
def exCluster : String → NsLookup := fun ns =>
  if ns = "ns-foreign" then .found false else .notFound

/-! Theorems. -/

/-- C7: in the hydrator loop, a run-timer tick invokes hydration exactly when
SourceCommitAndDir succeeds and the observed commit differs from the commit
recorded in the done file (a commit already recorded as done is never
re-rendered by the run timer), and a rehydrate-timer tick invokes rendering
exactly when SourceCommitAndDir succeeds and the error file exists under the
hydrated root; otherwise the tick performs no rendering. -/
theorem hydrator_tick_render_conditions (env : HydratorEnv) (c : String) :
    (runTimerTick env = .render c ↔
      (∃ dir, env.source = .ok (c, dir)) ∧ DoneCommit env.doneFile ≠ c) ∧
    (rehydrateTimerTick env = .render c ↔
      (∃ dir, env.source = .ok (c, dir)) ∧ env.errorFile = .present) := by
  constructor
  · unfold runTimerTick
    cases hs : env.source with
    | error e => simp
    | ok cs =>
      obtain ⟨c0, dir0⟩ := cs
      by_cases h : DoneCommit env.doneFile = c0
      · simp [h]
      · simp [h]
        aesop
  · unfold rehydrateTimerTick
    cases hs : env.source with
    | error e => simp
    | ok cs =>
      obtain ⟨c0, dir0⟩ := cs
      cases hf : env.errorFile <;> simp

/-- Witness for C7 at a concrete state: with commit abc observed, an old
commit recorded as done and no error file, the run timer renders and the
rehydrate timer does not. -/
theorem hydrator_tick_render_conditions_witness :
    (runTimerTick ⟨.ok ("abc", "dir"), .content "old", .missing⟩ = .render "abc" ↔
      (∃ dir, (Except.ok ("abc", "dir") : Except String (String × String)) =
        .ok ("abc", dir)) ∧
      DoneCommit (.content "old") ≠ "abc") ∧
    (rehydrateTimerTick ⟨.ok ("abc", "dir"), .content "old", .missing⟩ = .render "abc" ↔
      (∃ dir, (Except.ok ("abc", "dir") : Except String (String × String)) =
        .ok ("abc", dir)) ∧
      (StatResult.missing = StatResult.present)) :=
  hydrator_tick_render_conditions ⟨.ok ("abc", "dir"), .content "old", .missing⟩ "abc"

/-- C8: when the source commit recomputed after the kustomize build differs
from the commit the pass started with, runHydrate returns a transient error
and never invokes the hydrated-symlink update, so the previously published
hydrated tree stays active. -/
theorem runHydrate_commit_changed_discards (sourceCommit newCommit : String)
    (env : RunHydrateEnv)
    (hbuild : env.kustomizeBuild = none)
    (hcompute : env.computeCommit = .ok newCommit)
    (hne : sourceCommit ≠ newCommit) :
    (runHydrate sourceCommit env).symlinkUpdateAttempted = false ∧
    ∃ msg, (runHydrate sourceCommit env).err = some (.transient msg) := by
  unfold runHydrate
  rw [hbuild, hcompute]
  simp [hne]

/-- Witness for C8 at a concrete input: the commit changed from a to b
mid-render and the partial output is not published. -/
theorem runHydrate_commit_changed_discards_witness :
    (runHydrate "a" ⟨none, .ok "b", none⟩).symlinkUpdateAttempted = false ∧
    ∃ msg, (runHydrate "a" ⟨none, .ok "b", none⟩).err = some (.transient msg) :=
  runHydrate_commit_changed_discards "a" "b" ⟨none, .ok "b", none⟩ rfl rfl (by decide)

/-- C9: the notified-annotation predicate over a field-diff set returns true
exactly when every changed field path other than .metadata.managedFields is
the notified-annotation path; and it reproduces the five cases of
TestOnlyNotifiedAnnotation (only the notified annotation; notified
annotation plus managedFields; another annotation; another label; notified
annotation plus another annotation). -/
theorem onlyNotifiedAnnotation_iff (diffSet : List String) :
    (onlyNotifiedAnnotationCheck diffSet = true ↔
      ∀ p ∈ diffSet, p ≠ metadataManagedFieldsPath → p = NotifiedAnnotationPath) ∧
    onlyNotifiedAnnotationCheck [NotifiedAnnotationPath] = true ∧
    onlyNotifiedAnnotationCheck [NotifiedAnnotationPath, metadataManagedFieldsPath] = true ∧
    onlyNotifiedAnnotationCheck [".metadata.annotations.hello"] = false ∧
    onlyNotifiedAnnotationCheck [".metadata.labels.hello"] = false ∧
    onlyNotifiedAnnotationCheck
      [NotifiedAnnotationPath, ".metadata.annotations.hello"] = false := by
  refine ⟨?_, by decide, by decide, by decide, by decide, by decide⟩
  unfold onlyNotifiedAnnotationCheck
  simp only [List.all_eq_true, Bool.or_eq_true, beq_iff_eq]
  constructor
  · intro h p hp hne
    rcases h p hp with h1 | h2
    · exact h1
    · exact absurd h2 hne
  · intro h p hp
    by_cases hb : p = metadataManagedFieldsPath
    · exact Or.inr hb
    · exact Or.inl (h p hp hb)

/-- Witness for C9 at the concrete one-element diff set holding only the
notified-annotation path. -/
theorem onlyNotifiedAnnotation_iff_witness :
    (onlyNotifiedAnnotationCheck [NotifiedAnnotationPath] = true ↔
      ∀ p ∈ [NotifiedAnnotationPath],
        p ≠ metadataManagedFieldsPath → p = NotifiedAnnotationPath) ∧
    onlyNotifiedAnnotationCheck [NotifiedAnnotationPath] = true ∧
    onlyNotifiedAnnotationCheck [NotifiedAnnotationPath, metadataManagedFieldsPath] = true ∧
    onlyNotifiedAnnotationCheck [".metadata.annotations.hello"] = false ∧
    onlyNotifiedAnnotationCheck [".metadata.labels.hello"] = false ∧
    onlyNotifiedAnnotationCheck
      [NotifiedAnnotationPath, ".metadata.annotations.hello"] = false :=
  onlyNotifiedAnnotation_iff [NotifiedAnnotationPath]

/-- Helper: what one non-syncing sync-status attempt does to
LastSyncedCommit and Sync.Commit: the former moves to the new commit exactly
when the source summary's TotalCount plus the new sync error count is
zero, and stays put otherwise. -/
theorem setSyncStatusBody_parts (cur : Status) (newStatus : SyncStatusInput)
    (d : Nat) (h : newStatus.syncing = false) :
    (setSyncStatusBody cur newStatus d).lastSyncedCommit =
      (if sourceTotalCount cur + newStatus.errs.length = 0 then newStatus.commit
       else cur.lastSyncedCommit) ∧
    (setSyncStatusBody cur newStatus d).sync.commit = newStatus.commit := by
  unfold setSyncStatusBody setSyncStatusFields setSyncStatusErrors setLastCommit
    summarizeErrors SetSyncing sourceTotalCount
  cases hs : cur.source.errorSummary with
  | none =>
      simp [h, hs]
      refine ⟨?_, ?_⟩ <;> split <;> rfl
  | some s =>
      simp [h, hs]
      refine ⟨?_, ?_⟩ <;> split <;> rfl

/-- C1: whenever setSyncStatusWithRetries publishes a non-syncing status,
LastSyncedCommit equals the sync commit exactly when the combined source and
sync error summary has TotalCount zero, and is left at its previous value
otherwise. -/
theorem lastSyncedCommit_requires_zero_errors (c : StatusClient) (cur : Status)
    (newStatus : SyncStatusInput) (fuel d : Nat) (st' : Status)
    (hsync : newStatus.syncing = false)
    (hpub : setSyncStatusWithRetries c cur newStatus fuel d = .written st') :
    st'.lastSyncedCommit =
      (if sourceTotalCount cur + newStatus.errs.length = 0 then newStatus.commit
       else cur.lastSyncedCommit) ∧
    st'.sync.commit = newStatus.commit := by
  induction fuel generalizing d with
  | zero => exact absurd hpub (by simp [setSyncStatusWithRetries])
  | succ n ih =>
    cases d with
    | zero => exact absurd hpub (by simp [setSyncStatusWithRetries])
    | succ d =>
      simp only [setSyncStatusWithRetries] at hpub
      split at hpub
      · exact absurd hpub (by simp)
      · split at hpub
        · exact absurd hpub (by simp)
        · split at hpub
          · rename_i hok
            cases hpub
            exact setSyncStatusBody_parts cur newStatus (d + 1) hsync
          · exact ih _ hpub
          · exact absurd hpub (by simp)

/-- Witness for C1: publishing a non-syncing status with no errors over an
empty previous status sets LastSyncedCommit to the new commit. -/
theorem lastSyncedCommit_requires_zero_errors_witness :
    exSyncInputNoErrs.syncing = false ∧
    setSyncStatusWithRetries okClient emptyStatus exSyncInputNoErrs 1 1 =
      .written (setSyncStatusBody emptyStatus exSyncInputNoErrs 1) ∧
    ((setSyncStatusBody emptyStatus exSyncInputNoErrs 1).lastSyncedCommit =
        (if sourceTotalCount emptyStatus + exSyncInputNoErrs.errs.length = 0
         then exSyncInputNoErrs.commit else emptyStatus.lastSyncedCommit) ∧
     (setSyncStatusBody emptyStatus exSyncInputNoErrs 1).sync.commit =
        exSyncInputNoErrs.commit) :=
  ⟨rfl, by decide,
    lastSyncedCommit_requires_zero_errors okClient emptyStatus exSyncInputNoErrs 1 1 _
      rfl (by decide)⟩

/-- Helper: the source-status setter never takes its unchanged-status
short-circuit when the previously recorded source LastUpdate is zero. -/
theorem setSourceStatusWithRetries_not_skipped_of_zero (c : StatusClient)
    (cur : Status) (p : ParserOpts) (newStatus : SourceStatusInput)
    (h : cur.source.lastUpdate = 0) :
    ∀ fuel d, setSourceStatusWithRetries c cur p newStatus fuel d ≠ .skipped := by
  intro fuel
  induction fuel with
  | zero => intro d; simp [setSourceStatusWithRetries]
  | succ n ih =>
    intro d
    cases d with
    | zero => simp [setSourceStatusWithRetries]
    | succ d =>
      simp only [setSourceStatusWithRetries]
      split
      · simp
      · split
        · rename_i hcond
          exact absurd h hcond.1
        · split
          · simp
          · exact ih _
          · simp

/-- Helper: the rendering-status setter never takes its unchanged-status
short-circuit when the previously recorded rendering LastUpdate is zero. -/
theorem setRenderingStatusWithRetires_not_skipped_of_zero (c : StatusClient)
    (cur : Status) (p : ParserOpts) (newStatus : RenderingStatusInput)
    (h : cur.rendering.lastUpdate = 0) :
    ∀ fuel d, setRenderingStatusWithRetires c cur p newStatus fuel d ≠ .skipped := by
  intro fuel
  induction fuel with
  | zero => intro d; simp [setRenderingStatusWithRetires]
  | succ n ih =>
    intro d
    cases d with
    | zero => simp [setRenderingStatusWithRetires]
    | succ d =>
      simp only [setRenderingStatusWithRetires]
      split
      · simp
      · split
        · rename_i hcond
          exact absurd h hcond.1
        · split
          · simp
          · exact ih _
          · simp

/-- Helper: the sync-status setter never takes its unchanged-status
short-circuit when the previously recorded sync LastUpdate is zero. -/
theorem setSyncStatusWithRetries_not_skipped_of_zero (c : StatusClient)
    (cur : Status) (newStatus : SyncStatusInput)
    (h : cur.sync.lastUpdate = 0) :
    ∀ fuel d, setSyncStatusWithRetries c cur newStatus fuel d ≠ .skipped := by
  intro fuel
  induction fuel with
  | zero => intro d; simp [setSyncStatusWithRetries]
  | succ n ih =>
    intro d
    cases d with
    | zero => simp [setSyncStatusWithRetries]
    | succ d =>
      simp only [setSyncStatusWithRetries]
      split
      · simp
      · split
        · rename_i hcond
          exact absurd h hcond.1
        · split
          · simp
          · exact ih _
          · simp

/-- C10: the unchanged-status short-circuit of the source, rendering and
sync status setters applies only when the previously recorded LastUpdate of
that section is non-zero; when it is still the zero time, the setter never
skips, so the first-ever write of each status section is sent to the API
server even if the computed status equals the current one. -/
theorem first_status_write_never_skipped (c : StatusClient) (cur : Status)
    (p : ParserOpts) (srcNew : SourceStatusInput) (rndNew : RenderingStatusInput)
    (syncNew : SyncStatusInput) (fuel d : Nat) :
    (cur.source.lastUpdate = 0 →
      setSourceStatusWithRetries c cur p srcNew fuel d ≠ .skipped) ∧
    (cur.rendering.lastUpdate = 0 →
      setRenderingStatusWithRetires c cur p rndNew fuel d ≠ .skipped) ∧
    (cur.sync.lastUpdate = 0 →
      setSyncStatusWithRetries c cur syncNew fuel d ≠ .skipped) :=
  ⟨fun h => setSourceStatusWithRetries_not_skipped_of_zero c cur p srcNew h fuel d,
   fun h => setRenderingStatusWithRetires_not_skipped_of_zero c cur p rndNew h fuel d,
   fun h => setSyncStatusWithRetries_not_skipped_of_zero c cur syncNew h fuel d⟩

/-- Witness for C10 on a status whose three LastUpdate timestamps are all
zero: an update identical to the current status is still written. -/
theorem first_status_write_never_skipped_witness :
    (emptyStatus.source.lastUpdate = 0 →
      setSourceStatusWithRetries okClient emptyStatus exOpts exSrcInput 1 1 ≠ .skipped) ∧
    (emptyStatus.rendering.lastUpdate = 0 →
      setRenderingStatusWithRetires okClient emptyStatus exOpts exRndInput 1 1 ≠ .skipped) ∧
    (emptyStatus.sync.lastUpdate = 0 →
      setSyncStatusWithRetries okClient emptyStatus exSyncInputNoErrs 1 1 ≠ .skipped) :=
  first_status_write_never_skipped okClient emptyStatus exOpts exSrcInput exRndInput
    exSyncInputNoErrs 1 1

/-- C2: each status-section attempt at denominator d retains exactly the
first ⌊n/d⌋ of the n pre-truncation errors, records TotalCount = n, and
marks Truncated exactly when d is not 1; and a request-entity-too-large
write failure retries the same update with the denominator doubled (so each
retry halves the retained list). -/
theorem truncation_doubles_denominator (c : StatusClient) (cur : Status)
    (p : ParserOpts) (srcNew : SourceStatusInput) (rndNew : RenderingStatusInput)
    (syncNew : SyncStatusInput) (fuel d : Nat) (hd : d ≠ 0)
    (hget : c.getError = false) (hw : c.write d = .requestTooLarge) :
    ((setSourceStatusFields cur.source p srcNew d).errors =
        srcNew.errs.take (srcNew.errs.length / d) ∧
      (setSourceStatusFields cur.source p srcNew d).errorSummary =
        some ⟨srcNew.errs.length, d != 1, srcNew.errs.length / d⟩) ∧
    ((setRenderingStatusFields cur.rendering p rndNew d).errors =
        rndNew.errs.take (rndNew.errs.length / d) ∧
      (setRenderingStatusFields cur.rendering p rndNew d).errorSummary =
        some ⟨rndNew.errs.length, d != 1, 0⟩) ∧
    ((setSyncStatusErrors cur syncNew.errs d).sync.errors =
        syncNew.errs.take (syncNew.errs.length / d) ∧
      (setSyncStatusErrors cur syncNew.errs d).sync.errorSummary =
        some ⟨syncNew.errs.length, d != 1, 0⟩) ∧
    (setSourceStatusWithRetries c cur p srcNew (fuel + 1) d =
      if cur.source.lastUpdate ≠ 0 ∧
          cur.ignoreTimestamps = (setSourceStatusBody cur p srcNew d).ignoreTimestamps
      then .skipped
      else setSourceStatusWithRetries c cur p srcNew fuel (d * 2)) ∧
    (setRenderingStatusWithRetires c cur p rndNew (fuel + 1) d =
      if cur.rendering.lastUpdate ≠ 0 ∧
          cur.ignoreTimestamps = (setRenderingStatusBody cur p rndNew d).ignoreTimestamps
      then .skipped
      else setRenderingStatusWithRetires c cur p rndNew fuel (d * 2)) ∧
    (setSyncStatusWithRetries c cur syncNew (fuel + 1) d =
      if cur.sync.lastUpdate ≠ 0 ∧
          cur.ignoreTimestamps = (setSyncStatusBody cur syncNew d).ignoreTimestamps
      then .skipped
      else setSyncStatusWithRetries c cur syncNew fuel (d * 2)) := by
  obtain ⟨d', rfl⟩ : ∃ d', d = d' + 1 :=
    ⟨d - 1, (Nat.succ_pred_eq_of_pos (Nat.pos_of_ne_zero hd)).symm⟩
  refine ⟨⟨rfl, rfl⟩, ⟨rfl, rfl⟩, ⟨rfl, rfl⟩, ?_, ?_, ?_⟩
  · simp only [setSourceStatusWithRetries, hget, Bool.false_eq_true, if_false]
    rw [hw]
  · simp only [setRenderingStatusWithRetires, hget, Bool.false_eq_true, if_false]
    rw [hw]
  · simp only [setSyncStatusWithRetries, hget, Bool.false_eq_true, if_false]
    rw [hw]

/-- Witness for C2 at denominator 2 with two pre-truncation errors: one
error is retained, TotalCount stays 2, Truncated is set, and the next retry
doubles the denominator to 4. -/
theorem truncation_doubles_denominator_witness :
    (2 : Nat) ≠ 0 ∧ tooLargeClient.getError = false ∧
    tooLargeClient.write 2 = .requestTooLarge ∧
    (((setSourceStatusFields emptyStatus.source exOpts exSrcInput 2).errors =
        exSrcInput.errs.take (exSrcInput.errs.length / 2) ∧
      (setSourceStatusFields emptyStatus.source exOpts exSrcInput 2).errorSummary =
        some ⟨exSrcInput.errs.length, 2 != 1, exSrcInput.errs.length / 2⟩) ∧
    ((setRenderingStatusFields emptyStatus.rendering exOpts exRndInput 2).errors =
        exRndInput.errs.take (exRndInput.errs.length / 2) ∧
      (setRenderingStatusFields emptyStatus.rendering exOpts exRndInput 2).errorSummary =
        some ⟨exRndInput.errs.length, 2 != 1, 0⟩) ∧
    ((setSyncStatusErrors emptyStatus exSyncInputErrs.errs 2).sync.errors =
        exSyncInputErrs.errs.take (exSyncInputErrs.errs.length / 2) ∧
      (setSyncStatusErrors emptyStatus exSyncInputErrs.errs 2).sync.errorSummary =
        some ⟨exSyncInputErrs.errs.length, 2 != 1, 0⟩) ∧
    (setSourceStatusWithRetries tooLargeClient emptyStatus exOpts exSrcInput (1 + 1) 2 =
      if emptyStatus.source.lastUpdate ≠ 0 ∧
          emptyStatus.ignoreTimestamps =
            (setSourceStatusBody emptyStatus exOpts exSrcInput 2).ignoreTimestamps
      then .skipped
      else setSourceStatusWithRetries tooLargeClient emptyStatus exOpts exSrcInput 1 (2 * 2)) ∧
    (setRenderingStatusWithRetires tooLargeClient emptyStatus exOpts exRndInput (1 + 1) 2 =
      if emptyStatus.rendering.lastUpdate ≠ 0 ∧
          emptyStatus.ignoreTimestamps =
            (setRenderingStatusBody emptyStatus exOpts exRndInput 2).ignoreTimestamps
      then .skipped
      else setRenderingStatusWithRetires tooLargeClient emptyStatus exOpts exRndInput 1 (2 * 2)) ∧
    (setSyncStatusWithRetries tooLargeClient emptyStatus exSyncInputErrs (1 + 1) 2 =
      if emptyStatus.sync.lastUpdate ≠ 0 ∧
          emptyStatus.ignoreTimestamps =
            (setSyncStatusBody emptyStatus exSyncInputErrs 2).ignoreTimestamps
      then .skipped
      else setSyncStatusWithRetries tooLargeClient emptyStatus exSyncInputErrs 1 (2 * 2))) :=
  ⟨by decide, rfl, rfl,
    truncation_doubles_denominator tooLargeClient emptyStatus exOpts exSrcInput exRndInput
      exSyncInputErrs 1 2 (by decide) rfl rfl⟩

/-- Counterexample to C3 as stated: with an all-ok environment observing the
same resourceVersion (12345) recorded by the last reconcile, the pass does
NOT reassert the owned resources - it performs no action at all and returns
an error so the request is requeued. -/
theorem reconcile_sameRV_counterexample :
    (reconcile exEnvAllOk ⟨some "12345", true⟩).actions = [] ∧
    (reconcile exEnvAllOk ⟨some "12345", true⟩).err ≠ none := by
  decide

/-- C3 (amended): when Reconcile observes the resourceVersion it recorded at
its last reconcile of the object, it returns an error (triggering a
rate-limited requeue) without reasserting any owned resource; resources are
reasserted only on a later pass that observes a fresh resourceVersion. -/
theorem reconcile_sameRV_no_reassert (env : ReconcileEnv) (st : ManagerState)
    (rs : RepoSyncObj)
    (hget : env.getResult = .found rs)
    (hsame : st.lastReconciled = some rs.resourceVersion) :
    reconcile env st =
      ⟨[], some ("ResourceVersion already reconciled: " ++ rs.resourceVersion),
       st, some rs⟩ := by
  unfold reconcile
  rw [hget]
  simp [hsame]

/-- Witness for the amended C3 at the concrete stale observation. -/
theorem reconcile_sameRV_no_reassert_witness :
    reconcile exEnvAllOk ⟨some "12345", true⟩ =
      ⟨[], some ("ResourceVersion already reconciled: " ++ exRepoSync.resourceVersion),
       ⟨some "12345", true⟩, some exRepoSync⟩ :=
  reconcile_sameRV_no_reassert exEnvAllOk ⟨some "12345", true⟩ exRepoSync rfl rfl

/-- Helper: updateStatus preserves the Stalled condition on the object it
writes, only ever performs the status write, returns nil when the write
succeeds or is skipped, and otherwise returns the write error. -/
theorem updateStatus_stalled_preserved (env : ReconcileEnv) (st : ManagerState)
    (currentStatus : RepoSyncStatus) (rs : RepoSyncObj) :
    (updateStatus env st currentStatus rs).rs.status.stalled = rs.status.stalled ∧
    (∀ a ∈ (updateStatus env st currentStatus rs).actions, a = Action.statusWrite) ∧
    (env.statusWriteError = none → (updateStatus env st currentStatus rs).err = none) ∧
    (∀ e, env.statusWriteError = some e →
      (updateStatus env st currentStatus rs).err = none ∨
      (updateStatus env st currentStatus rs).err = some e) := by
  by_cases heq : currentStatus =
      { observedGeneration := rs.generation, reconciling := rs.status.reconciling,
        stalled := rs.status.stalled, reconciler := rs.status.reconciler }
  · simp [updateStatus, heq]
  · cases hw : env.statusWriteError with
    | none => simp [updateStatus, heq, hw]
    | some e0 => simp [updateStatus, heq, hw]

/-- C4: for a RepoSync whose namespace is the controller namespace,
Reconcile sets a Stalled=True condition with reason Validation, attempts no
worker-resource upsert (the only possible side effect is the status write),
returns nil when the status update succeeds, and otherwise returns exactly
the status-update error. -/
theorem reconcile_controller_namespace_stalls (env : ReconcileEnv) (st : ManagerState)
    (rs : RepoSyncObj)
    (hget : env.getResult = .found rs)
    (hdiff : st.lastReconciled ≠ some rs.resourceVersion)
    (hns : rs.namespaceName = controllerNamespace) :
    (∃ rs', (reconcile env st).rs = some rs' ∧
      rs'.status.stalled =
        some ("Validation",
          "RepoSync objects are not allowed in the " ++ controllerNamespace ++
            " namespace")) ∧
    (∀ a ∈ (reconcile env st).actions, a = Action.statusWrite) ∧
    (env.statusWriteError = none → (reconcile env st).err = none) ∧
    (∀ e, env.statusWriteError = some e →
      (reconcile env st).err = none ∨ (reconcile env st).err = some e) := by
  have hred : reconcile env st =
      (let u := updateStatus env st rs.status
          (setStalled rs "Validation"
            ("RepoSync objects are not allowed in the " ++ controllerNamespace ++
              " namespace"))
       ⟨u.actions, u.err, u.state, some u.rs⟩) := by
    unfold reconcile
    rw [hget]
    simp only [hdiff, hns, if_false, if_true, ite_false, ite_true]
  rw [hred]
  obtain ⟨h1, h2, h3, h4⟩ :=
    updateStatus_stalled_preserved env st rs.status
      (setStalled rs "Validation"
        ("RepoSync objects are not allowed in the " ++ controllerNamespace ++
          " namespace"))
  exact ⟨⟨_, rfl, h1.trans rfl⟩, h2, h3, h4⟩

/-- Witness for C4: a RepoSync placed in config-management-system is stalled
with reason Validation by an otherwise all-ok reconcile pass. -/
theorem reconcile_controller_namespace_stalls_witness :
    (∃ rs', (reconcile exEnvControllerNs ⟨none, false⟩).rs = some rs' ∧
      rs'.status.stalled =
        some ("Validation",
          "RepoSync objects are not allowed in the " ++ controllerNamespace ++
            " namespace")) ∧
    (∀ a ∈ (reconcile exEnvControllerNs ⟨none, false⟩).actions, a = Action.statusWrite) ∧
    (exEnvControllerNs.statusWriteError = none →
      (reconcile exEnvControllerNs ⟨none, false⟩).err = none) ∧
    (∀ e, exEnvControllerNs.statusWriteError = some e →
      (reconcile exEnvControllerNs ⟨none, false⟩).err = none ∨
      (reconcile exEnvControllerNs ⟨none, false⟩).err = some e) :=
  reconcile_controller_namespace_stalls exEnvControllerNs ⟨none, false⟩
    exRepoSyncInControllerNs rfl (by decide) rfl

/-- Helper: the dedup loop keeps exactly the conflicts that do not duplicate
an existing sync error, in order, in their ToCSE form. -/
theorem newConflictErrors_eq_filter (syncErrors : List ConfigSyncError)
    (conflictErrs : List ManagementConflictError) :
    newConflictErrors syncErrors conflictErrs =
      (conflictErrs.filter fun ce => !(isDupConflict syncErrors ce)).map
        ManagementConflictError.toCSE := by
  suffices h : ∀ (l : List ManagementConflictError) (acc : List ConfigSyncError),
      l.foldl
        (fun errs conflictErr =>
          if isDupConflict syncErrors conflictErr then errs
          else errs ++ [conflictErr.toCSE]) acc =
      acc ++ (l.filter fun ce => !(isDupConflict syncErrors ce)).map
        ManagementConflictError.toCSE by
    simpa [newConflictErrors, isDupConflict] using h conflictErrs []
  intro l
  induction l with
  | nil => intro acc; simp
  | cons x xs ih =>
      intro acc
      by_cases hx : isDupConflict syncErrors x
      · simp [hx, ih]
      · simp [hx, ih]

/-- Helper: any status written by prependRootSyncRemediatorStatus stores a
prefix-truncation of newErrors ++ existing errors at some positive
denominator, with the pre-truncation TotalCount, and stamps the current
time. -/
theorem prepend_written_shape (c : StatusClient) (cur : Status)
    (conflictErrs : List ManagementConflictError) (now : Nat) :
    ∀ fuel d st',
      prependRootSyncRemediatorStatus c cur conflictErrs now fuel d = .written st' →
      ∃ d', d' ≠ 0 ∧
        st'.sync.errors =
          (newConflictErrors cur.sync.errors conflictErrs ++ cur.sync.errors).take
            ((newConflictErrors cur.sync.errors conflictErrs ++
              cur.sync.errors).length / d') ∧
        st'.sync.errorSummary =
          some ⟨(newConflictErrors cur.sync.errors conflictErrs ++
                  cur.sync.errors).length, d' != 1, 0⟩ ∧
        st'.sync.lastUpdate = now := by
  intro fuel
  induction fuel with
  | zero =>
      intro d st' h
      exact absurd h (by simp [prependRootSyncRemediatorStatus])
  | succ n ih =>
      intro d st' h
      cases d with
      | zero => exact absurd h (by simp [prependRootSyncRemediatorStatus])
      | succ d =>
          simp only [prependRootSyncRemediatorStatus] at h
          split at h
          · exact absurd h (by simp)
          · split at h
            · exact absurd h (by simp)
            · split at h
              · rename_i hok
                cases h
                exact ⟨d + 1, by simp, rfl, rfl, rfl⟩
              · exact ih _ _ h
              · exact absurd h (by simp)

/-- C6: prependRootSyncRemediatorStatus keeps exactly the conflicts that do
not duplicate an existing ManagementConflictErrorCode sync error (comparing
the conflict's own message and its current-manager pair message) and places
them in front of the existing sync errors; when nothing new remains, no
status update API call is made; and every written status stores a prefix of
newErrors ++ existing with the pre-truncation TotalCount. -/
theorem prepend_conflicts_dedup (c : StatusClient) (cur : Status)
    (conflictErrs : List ManagementConflictError) (now fuel d : Nat)
    (hd : d ≠ 0) (hget : c.getError = false) :
    (newConflictErrors cur.sync.errors conflictErrs =
      (conflictErrs.filter fun ce => !(isDupConflict cur.sync.errors ce)).map
        ManagementConflictError.toCSE) ∧
    (newConflictErrors cur.sync.errors conflictErrs = [] →
      prependRootSyncRemediatorStatus c cur conflictErrs now (fuel + 1) d =
        .noNewErrors) ∧
    (∀ st',
      prependRootSyncRemediatorStatus c cur conflictErrs now (fuel + 1) d =
        .written st' →
      ∃ d', d' ≠ 0 ∧
        st'.sync.errors =
          (newConflictErrors cur.sync.errors conflictErrs ++ cur.sync.errors).take
            ((newConflictErrors cur.sync.errors conflictErrs ++
              cur.sync.errors).length / d') ∧
        st'.sync.errorSummary =
          some ⟨(newConflictErrors cur.sync.errors conflictErrs ++
                  cur.sync.errors).length, d' != 1, 0⟩ ∧
        st'.sync.lastUpdate = now) := by
  obtain ⟨d0, rfl⟩ : ∃ d0, d = d0 + 1 :=
    ⟨d - 1, (Nat.succ_pred_eq_of_pos (Nat.pos_of_ne_zero hd)).symm⟩
  refine ⟨newConflictErrors_eq_filter cur.sync.errors conflictErrs, ?_, ?_⟩
  · intro hempty
    simp [prependRootSyncRemediatorStatus, hget, hempty]
  · exact fun st' => prepend_written_shape c cur conflictErrs now (fuel + 1) (d0 + 1) st'

/-- Witness for C6: over a status already recording conflict A, prepending
conflicts A and B keeps only B; with an always-ok client the written status
at denominator 1 is B followed by the existing error. -/
theorem prepend_conflicts_dedup_witness :
    (1 : Nat) ≠ 0 ∧ okClient.getError = false ∧
    ((newConflictErrors exCurWithConflict.sync.errors [exConflictA, exConflictB] =
      ([exConflictA, exConflictB].filter fun ce =>
          !(isDupConflict exCurWithConflict.sync.errors ce)).map
        ManagementConflictError.toCSE) ∧
    (newConflictErrors exCurWithConflict.sync.errors [exConflictA, exConflictB] = [] →
      prependRootSyncRemediatorStatus okClient exCurWithConflict
        [exConflictA, exConflictB] 9 (0 + 1) 1 = .noNewErrors) ∧
    (∀ st',
      prependRootSyncRemediatorStatus okClient exCurWithConflict
        [exConflictA, exConflictB] 9 (0 + 1) 1 = .written st' →
      ∃ d', d' ≠ 0 ∧
        st'.sync.errors =
          (newConflictErrors exCurWithConflict.sync.errors [exConflictA, exConflictB] ++
            exCurWithConflict.sync.errors).take
            ((newConflictErrors exCurWithConflict.sync.errors
                [exConflictA, exConflictB] ++ exCurWithConflict.sync.errors).length / d') ∧
        st'.sync.errorSummary =
          some ⟨(newConflictErrors exCurWithConflict.sync.errors
                  [exConflictA, exConflictB] ++ exCurWithConflict.sync.errors).length,
                d' != 1, 0⟩ ∧
        st'.sync.lastUpdate = 9)) :=
  ⟨by decide, rfl,
    prepend_conflicts_dedup okClient exCurWithConflict [exConflictA, exConflictB] 9 0 1
      (by decide) rfl⟩

/-- Helper: looking up a key after setKey. -/
theorem lookup_setKey (m : List (String × Bool)) (k : String) (v : Bool) (k' : String) :
    (setKey m k v).lookup k' = if k' = k then some v else m.lookup k' := by
  induction m with
  | nil =>
      by_cases h : k' = k
      · simp [setKey, List.lookup_cons, h]
      · simp [setKey, List.lookup_cons, beq_false_of_ne h, h]
  | cons kv rest ih =>
      obtain ⟨k0, v0⟩ := kv
      by_cases h : k0 = k
      · subst h
        by_cases h' : k' = k0
        · simp [setKey, List.lookup_cons, h']
        · simp [setKey, List.lookup_cons, beq_false_of_ne h', h']
      · by_cases h' : k' = k0
        · have hkk : ¬k' = k := fun hc => h (h'.symm.trans hc)
          simp [setKey, h, List.lookup_cons, h', hkk]
        · simp [setKey, h, List.lookup_cons, beq_false_of_ne h', h', ih]

/-- Helper: the keys present after setKey. -/
theorem mem_keys_setKey (m : List (String × Bool)) (k : String) (v : Bool) (k' : String) :
    k' ∈ (setKey m k v).map Prod.fst ↔ k' ∈ m.map Prod.fst ∨ k' = k := by
  induction m with
  | nil => simp [setKey]
  | cons kv rest ih =>
      obtain ⟨k0, v0⟩ := kv
      by_cases h : k0 = k
      · subst h
        simp [setKey]
        tauto
  -- else branch
      · simp [setKey, h, ih]
        tauto

/-- Helper: setKey preserves distinctness of the keys. -/
theorem nodup_keys_setKey (m : List (String × Bool)) (k : String) (v : Bool)
    (h : (m.map Prod.fst).Nodup) : ((setKey m k v).map Prod.fst).Nodup := by
  induction m with
  | nil => simp [setKey]
  | cons kv rest ih =>
      obtain ⟨k0, v0⟩ := kv
      simp only [List.map_cons, List.nodup_cons] at h
      obtain ⟨hk0, hrest⟩ := h
      by_cases hh : k0 = k
      · subst hh
        have hs : setKey ((k0, v0) :: rest) k0 v = (k0, v) :: rest := by
          simp [setKey]
        rw [hs, List.map_cons, List.nodup_cons]
        exact ⟨hk0, hrest⟩
      · have hs : setKey ((k0, v0) :: rest) k v = (k0, v0) :: setKey rest k v := by
          simp [setKey, hh]
        rw [hs, List.map_cons, List.nodup_cons]
        refine ⟨?_, ih hrest⟩
        rw [mem_keys_setKey]
        rintro (hc | hc)
        · exact hk0 hc
        · exact hh hc

/-- Helper: membership and lookup agree on association lists with distinct
keys. -/
theorem mem_iff_lookup (m : List (String × Bool)) (hnd : (m.map Prod.fst).Nodup)
    (k : String) (v : Bool) : (k, v) ∈ m ↔ m.lookup k = some v := by
  induction m with
  | nil => simp [List.lookup]
  | cons kv rest ih =>
      obtain ⟨k0, v0⟩ := kv
      simp only [List.map_cons, List.nodup_cons] at hnd
      obtain ⟨hk0, hrest⟩ := hnd
      by_cases h : k = k0
      · have hbeq : (k == k0) = true := beq_iff_eq.mpr h
        constructor
        · intro hmem
          rcases List.mem_cons.mp hmem with heq | hmem'
          · injection heq with h1 h2
            simp [List.lookup, hbeq, h2]
          · exact absurd (h ▸ List.mem_map.mpr ⟨(k, v), hmem', rfl⟩) hk0
        · intro hl
          simp only [List.lookup, hbeq] at hl
          injection hl with hv
          exact List.mem_cons.mpr (Or.inl (by rw [h, hv]))
      · have hbeq : (k == k0) = false := by
          simp [h]
        simp only [List.lookup, hbeq, List.mem_cons]
        constructor
        · rintro (heq | hmem')
          · injection heq with h1 h2
            exact absurd h1 h
          · exact (ih hrest).mp hmem'
        · intro hl
          exact Or.inr ((ih hrest).mpr hl)

/-- Helper: the namespaces map built by collectNamespaces has distinct
keys. -/
theorem collect_keys_nodup (objs : List FileObject) :
    ((collectNamespaces objs).map Prod.fst).Nodup := by
  suffices h : ∀ (l : List FileObject) (m : List (String × Bool)),
      (m.map Prod.fst).Nodup →
      ((l.foldl (fun m o =>
          if o.isNamespaceKind then setKey m o.name true
          else if o.namespaceName ≠ "" ∧ m.lookup o.namespaceName ≠ some true then
            setKey m o.namespaceName false
          else m) m).map Prod.fst).Nodup by
    exact h objs [] (by simp)
  intro l
  induction l with
  | nil => intro m hm; exact hm
  | cons o os ih =>
      intro m hm
      simp only [List.foldl_cons]
      by_cases hk : o.isNamespaceKind
      · rw [if_pos hk]
        exact ih _ (nodup_keys_setKey m o.name true hm)
      · rw [if_neg hk]
        by_cases hc : o.namespaceName ≠ "" ∧ m.lookup o.namespaceName ≠ some true
        · rw [if_pos hc]
          exact ih _ (nodup_keys_setKey m o.namespaceName false hm)
        · rw [if_neg hc]
          exact ih _ hm

/-- Helper: the namespaces map records true for declared namespaces, false
for namespaces that are only referenced (unless already true), and keeps the
initial bindings otherwise. -/
theorem collect_lookup_general (objs : List FileObject) :
    ∀ (m : List (String × Bool)) (ns : String),
      ((objs.foldl (fun m o =>
          if o.isNamespaceKind then setKey m o.name true
          else if o.namespaceName ≠ "" ∧ m.lookup o.namespaceName ≠ some true then
            setKey m o.namespaceName false
          else m) m).lookup ns) =
        (if declaresNamespace objs ns then some true
         else if referencesNamespace objs ns then
           (if m.lookup ns = some true then some true else some false)
         else m.lookup ns) := by
  induction objs with
  | nil =>
      intro m ns
      simp [declaresNamespace, referencesNamespace]
  | cons o os ih =>
      intro m ns
      simp only [List.foldl_cons]
      by_cases hk : o.isNamespaceKind
      · rw [if_pos hk]
        rw [ih]
        by_cases hn : ns = o.name
        · have hl : (setKey m o.name true).lookup ns = some true := by
            rw [lookup_setKey, if_pos hn]
          rw [hl]
          have hdecl : declaresNamespace (o :: os) ns = true := by
            simp [declaresNamespace, hk, hn]
          rw [hdecl]
          by_cases hd : declaresNamespace os ns
          · rw [if_pos hd]
            rfl
          · rw [if_neg hd]
            by_cases hr : referencesNamespace os ns
            · rw [if_pos hr, if_pos rfl]
              rfl
            · rw [if_neg hr]
              rfl
        · have hl : (setKey m o.name true).lookup ns = m.lookup ns := by
            rw [lookup_setKey, if_neg hn]
          rw [hl]
          have hdecl : declaresNamespace (o :: os) ns = declaresNamespace os ns := by
            simp [declaresNamespace, beq_false_of_ne (fun hc => hn hc.symm)]
          have hrefs : referencesNamespace (o :: os) ns = referencesNamespace os ns := by
            simp [referencesNamespace, hk]
          rw [hdecl, hrefs]
      · have hk' : o.isNamespaceKind = false := by
          simpa using hk
        rw [if_neg hk]
        have hdecl : declaresNamespace (o :: os) ns = declaresNamespace os ns := by
          simp [declaresNamespace, hk']
        by_cases hc : o.namespaceName ≠ "" ∧ m.lookup o.namespaceName ≠ some true
        · rw [if_pos hc]
          rw [ih]
          obtain ⟨hne, hnt⟩ := hc
          by_cases hn : ns = o.namespaceName
          · have hl : (setKey m o.namespaceName false).lookup ns = some false := by
              rw [lookup_setKey, if_pos hn]
            rw [hl]
            have hns : o.namespaceName ≠ "" := hne
            have hrefs : referencesNamespace (o :: os) ns = true := by
              simp [referencesNamespace, hk', hn, hns]
            have hmt : ¬m.lookup ns = some true := hn ▸ hnt
            rw [hdecl, hrefs, if_pos rfl]
            by_cases hd : declaresNamespace os ns
            · rw [if_pos hd, if_pos hd]
            · rw [if_neg hd, if_neg hd, if_neg hmt]
              by_cases hr : referencesNamespace os ns
              · rw [if_pos hr, if_neg (by simp)]
              · rw [if_neg hr]
          · have hl : (setKey m o.namespaceName false).lookup ns = m.lookup ns := by
              rw [lookup_setKey, if_neg hn]
            rw [hl]
            have hrefs : referencesNamespace (o :: os) ns = referencesNamespace os ns := by
              simp [referencesNamespace, hk',
                beq_false_of_ne (fun hc' => hn hc'.symm)]
            rw [hdecl, hrefs]
        · rw [if_neg hc]
          rw [ih]
          rcases Decidable.em (ns = o.namespaceName ∧ ns ≠ "") with hcase | hcase
          · obtain ⟨hn, hns⟩ := hcase
            have hmt : m.lookup ns = some true := by
              rcases Decidable.not_and_iff_or_not.mp hc with h1 | h1
              · exact absurd (hn ▸ hns) h1
              · rw [hn]
                exact not_not.mp h1
            have hns' : o.namespaceName ≠ "" := hn ▸ hns
            have hrefs : referencesNamespace (o :: os) ns = true := by
              simp [referencesNamespace, hk', hn, hns']
            rw [hdecl, hrefs, if_pos rfl, hmt, if_pos rfl]
            by_cases hd : declaresNamespace os ns
            · rw [if_pos hd, if_pos hd]
            · rw [if_neg hd, if_neg hd]
              by_cases hr : referencesNamespace os ns
              · rw [if_pos hr]
              · rw [if_neg hr]
          · have hrefs : referencesNamespace (o :: os) ns = referencesNamespace os ns := by
              rcases Decidable.not_and_iff_or_not.mp hcase with h1 | h1
              · simp [referencesNamespace, beq_false_of_ne (fun hc' => h1 hc'.symm)]
              · have hns : ns = "" := not_not.mp h1
                simp [referencesNamespace, hns]
            rw [hdecl, hrefs]

/-- Helper: the second loop of addImplicitNamespaces appends exactly the
synthesized namespaces for the map entries that are undeclared, not the
controller namespace, and synthesizable per the cluster lookup. -/
theorem addImplicitNamespaces_fold (cluster : String → NsLookup) :
    ∀ (l : List (String × Bool)) (acc : List FileObject × List String),
      (l.foldl (fun acc nsd =>
        if nsd.2 || nsd.1 == controllerNamespace then acc
        else
          match cluster nsd.1 with
          | .lookupError =>
              (acc.1,
               acc.2 ++ ["unable to check the existence of the implicit namespace " ++ nsd.1])
          | .found isManager =>
              if isManager then (acc.1 ++ [implicitNamespace nsd.1], acc.2) else acc
          | .notFound => (acc.1 ++ [implicitNamespace nsd.1], acc.2)) acc).1 =
      acc.1 ++ l.filterMap (fun nsd =>
        if !nsd.2 && !(nsd.1 == controllerNamespace) && synthesizes (cluster nsd.1) then
          some (implicitNamespace nsd.1)
        else none) := by
  intro l
  induction l with
  | nil => intro acc; simp
  | cons x xs ih =>
      intro acc
      obtain ⟨nsx, bx⟩ := x
      simp only [List.foldl_cons, List.filterMap_cons]
      by_cases hb : (bx || (nsx == controllerNamespace)) = true
      · rw [if_pos hb, ih]
        have hcond : (!bx && !(nsx == controllerNamespace) &&
            synthesizes (cluster nsx)) = false := by
          cases hbx : bx
          · have hbc : (nsx == controllerNamespace) = true := by
              simpa [hbx] using hb
            simp [hbc]
          · simp [hbx]
        rw [hcond]
        simp
      · rw [if_neg hb]
        have hb' : bx = false ∧ (nsx == controllerNamespace) = false := by
          constructor
          · cases hbx : bx
            · rfl
            · exact absurd (by simp [hbx]) hb
          · cases hbc : (nsx == controllerNamespace)
            · rfl
            · exact absurd (by simp [hbc]) hb
        cases hcl : cluster nsx with
        | lookupError =>
            rw [ih]
            simp [hb'.1, hb'.2, synthesizes]
        | found isManager =>
            cases isManager with
            | false =>
                rw [ih]
                simp [hb'.1, hb'.2, synthesizes]
            | true =>
                rw [ih]
                simp [hb'.1, hb'.2, synthesizes]
        | notFound =>
            rw [ih]
            simp [hb'.1, hb'.2, synthesizes]

/-- C5: addImplicitNamespaces keeps the parsed object list as a prefix and
appends exactly one synthesized Namespace, carrying the prevent-deletion
annotation, for each namespace name that is referenced by some object's
metadata.namespace but not declared as a Namespace in the source, except the
controller namespace config-management-system and namespaces that already
exist on the cluster without this reconciler as their manager. -/
theorem addImplicitNamespaces_spec (cluster : String → NsLookup) (objs : List FileObject) :
    ((addImplicitNamespaces cluster objs).1 =
      objs ++ (collectNamespaces objs).filterMap (fun nsd =>
        if !nsd.2 && !(nsd.1 == controllerNamespace) && synthesizes (cluster nsd.1) then
          some (implicitNamespace nsd.1)
        else none)) ∧
    (∀ ns : String,
      (collectNamespaces objs).lookup ns =
        (if declaresNamespace objs ns then some true
         else if referencesNamespace objs ns then some false
         else none)) ∧
    (∀ ns : String,
      implicitNamespace ns ∈ (collectNamespaces objs).filterMap (fun nsd =>
        if !nsd.2 && !(nsd.1 == controllerNamespace) && synthesizes (cluster nsd.1) then
          some (implicitNamespace nsd.1)
        else none) ↔
      declaresNamespace objs ns = false ∧ referencesNamespace objs ns = true ∧
        ns ≠ controllerNamespace ∧ synthesizes (cluster ns) = true) ∧
    (∀ ns : String, (implicitNamespace ns).preventDeletion = true) := by
  have hlookup : ∀ ns : String,
      (collectNamespaces objs).lookup ns =
        (if declaresNamespace objs ns then some true
         else if referencesNamespace objs ns then some false
         else none) := by
    intro ns
    have h := collect_lookup_general objs [] ns
    rw [collectNamespaces, h]
    by_cases hd : declaresNamespace objs ns
    · rw [if_pos hd, if_pos hd]
    · rw [if_neg hd, if_neg hd]
      by_cases hr : referencesNamespace objs ns
      · rw [if_pos hr, if_pos hr, if_neg (by simp [List.lookup])]
      · rw [if_neg hr, if_neg hr]
        rfl
  refine ⟨addImplicitNamespaces_fold cluster (collectNamespaces objs) (objs, []), hlookup,
    ?_, fun _ => rfl⟩
  intro ns
  constructor
  · intro hmem
    obtain ⟨nsd, hnsd, hf⟩ := List.mem_filterMap.mp hmem
    by_cases hcond : (!nsd.2 && !(nsd.1 == controllerNamespace) &&
        synthesizes (cluster nsd.1)) = true
    · rw [if_pos hcond] at hf
      injection hf with hf'
      injection hf' with h1 h2
      obtain ⟨hb2, hsy⟩ := Bool.and_eq_true .. ▸ hcond
      obtain ⟨hb0, hb1⟩ := Bool.and_eq_true .. ▸ hb2
      have hns1 : nsd.1 = ns := h2
      have hv : nsd.2 = false := by
        cases hv : nsd.2
        · rfl
        · rw [hv] at hb0
          exact absurd hb0 (by simp)
      have hmem' : (ns, false) ∈ collectNamespaces objs := by
        rw [← hns1, ← hv]
        exact hnsd
      have hlk := (mem_iff_lookup (collectNamespaces objs) (collect_keys_nodup objs)
        ns false).mp hmem'
      rw [hlookup ns] at hlk
      by_cases hd : declaresNamespace objs ns
      · rw [if_pos hd] at hlk
        exact absurd hlk (by simp)
      · rw [if_neg hd] at hlk
        by_cases hr : referencesNamespace objs ns
        · refine ⟨by simpa using hd, hr, ?_, hns1 ▸ hsy⟩
          intro hcn
          rw [hns1] at hb1
          rw [hcn] at hb1
          simp at hb1
        · rw [if_neg hr] at hlk
          exact absurd hlk (by simp)
    · rw [if_neg hcond] at hf
      exact absurd hf (by simp)
  · rintro ⟨hd, hr, hcn, hsy⟩
    have hlk : (collectNamespaces objs).lookup ns = some false := by
      rw [hlookup ns, hd]
      simp [hr]
    have hmem' : (ns, false) ∈ collectNamespaces objs :=
      (mem_iff_lookup (collectNamespaces objs) (collect_keys_nodup objs) ns false).mpr hlk
    refine List.mem_filterMap.mpr ⟨(ns, false), hmem', ?_⟩
    rw [if_pos]
    simp [beq_false_of_ne hcn, hsy]

/-- Witness for C5 at concrete inputs: ns-new (referenced, undeclared,
absent from the cluster) is synthesized; ns-decl (declared), ns-foreign
(existing under another manager), the controller namespace and the empty
namespace are not. -/
theorem addImplicitNamespaces_spec_witness :
    (addImplicitNamespaces exCluster exObjs).1 = exObjs ++ [implicitNamespace "ns-new"] := by
  rw [(addImplicitNamespaces_spec exCluster exObjs).1]
  decide

end ConfigSync
